import Mathlib

/- Shallow embedding of sverchok, file utils/surface/gordon.py.

The algorithmic file under study defines reparametrize_by_segments,
gordon_surface, nurbs_blend_surfaces and nurbs_birail_by_gordon.  Its
collaborators (simple_loft, interpolate_nurbs_surface, unify_curves,
unify_curves_degree, unify_nurbs_surfaces, cut_segment, concatenate,
swap_uv, curve_frame_on_surface_array, interpolate_nurbs_curve_with_tangents,
SvBezierCurve.from_control_points, prepare_nurbs_birail, get_end_points,
get_u_bounds) live in other modules of the repository that are not part of
the sources at hand; following the spec (sections 2 and 6) they are an
external curve/surface math library, modelled here as fields of a record of
abstract operations (Collab) over which all theorems quantify.  Scalars are
modelled as rationals; the diagnostic logger is a pure side channel
(spec section 5) and is not modelled.  Python exceptions are modelled as
Except.error values. -/

/-- Backend selector for NURBS surface construction; models the constants
SvNurbsSurface.NATIVE and SvNurbsSurface.GEOMDL of the repository. -/
inductive Impl where
  | NATIVE
  | GEOMDL
deriving DecidableEq, Inhabited

/-- A 3D point with rational coordinates. -/
abbrev Point3 : Type := ℚ × ℚ × ℚ

/-- A rectangular grid of 3D points, stored as a list of rows. -/
abbrev Grid : Type := List (List Point3)

/-- Modelled from the spec: a NURBS curve as observed by gordon.py (data
model of spec section 3): degree, knot vector, and the rationality flag
(true when the per-point weights are non-uniform).  Control points and
weights are never inspected by gordon.py itself, only transformed through
collaborator operations, so they are not carried. -/
structure Curve where
  degree : Nat
  knotvector : List ℚ
  rational : Bool
deriving DecidableEq, Inhabited

/-- Model of the curve method is_rational() used at gordon.py lines 89-92. -/
def Curve.is_rational (c : Curve) : Bool := c.rational

/-- Modelled from the spec: a NURBS surface (data model of spec section 3):
degree pair, two knot vectors, control point grid, optional weights.  The
implementation tag records which backend built the surface. -/
structure Surface where
  degree_u : Nat
  degree_v : Nat
  knotvector_u : List ℚ
  knotvector_v : List ℚ
  control_points : Grid
  weights : Option (List (List ℚ))
  implementation : Impl
deriving DecidableEq, Inhabited

/-- Modelled from the spec: the constructor SvNurbsSurface.build of spec
section 6 (code outside the sources at hand): builds a surface of the
selected implementation from the given degree pair, knot vectors, control
point grid and optional weights. -/
def SvNurbsSurface.build (impl : Impl) (du dv : Nat) (ku kv : List ℚ)
    (cps : Grid) (w : Option (List (List ℚ))) : Surface :=
  ⟨du, dv, ku, kv, cps, w, impl⟩

/-- Modelled from the spec: the collaborator curve/surface math library of
spec section 6, kept abstract.  Each field is one external operation
invoked by gordon.py; theorems quantify over this record.
Field conventions follow the call sites in gordon.py:
simple_loft takes (curves, degree_v, knotvector_accuracy, metric) and the
call site discards the first two components of its Python triple, so only
the surface is returned here; cut_segment is always called with
rescale=True; curve_frame_on_surface_array returns (points, tangents,
binormals), the two discarded components of its Python 5-tuple are dropped;
unit is the pointwise division of a vector by its Euclidean norm (the norm
is irrational in general, hence abstracted). -/
structure Collab where
  unify_curves_degree : List Curve → List Curve
  unify_curves : List Curve → Nat → List Curve
  simple_loft : List Curve → Nat → Nat → String → Surface
  interpolate_nurbs_surface : Nat → Nat → Grid → String → Surface
  unify_nurbs_surfaces : List Surface → Nat → List Surface
  swap_uv : Surface → Surface
  cut_segment : Curve → ℚ → ℚ → Curve
  concatenate : Curve → Curve → Curve
  get_u_bounds : Curve → ℚ × ℚ
  curve_frame_on_surface_array : Surface → Curve → List ℚ → List Point3 × List Point3 × List Point3
  unit : Point3 → Point3
  interpolate_nurbs_curve_with_tangents : Nat → List Point3 → List Point3 → List ℚ → Curve
  bezier_from_control_points : List Point3 → Curve
  prepare_nurbs_birail : Curve → Curve → List Curve → Option (List ℚ) → Option (List ℚ) → Nat → Option Nat → Bool → Bool → String → List Curve
  get_end_points : Curve → List Point3

/-- Error message of gordon.py line 84. -/
def errNoCurves : String := "U or V curves are not provided"

/-- Error message of gordon.py line 87. -/
def errKnots : String := "u_knots and v_knots must be either both provided or both omitted"

/-- Error message of gordon.py line 90. -/
def errRationalU : String := "Some of U-curves are rational. Rational curves are not supported for Gordon surface."

/-- Error message of gordon.py line 92. -/
def errRationalV : String := "Some of V-curves are rational. Rational curves are not supported for Gordon surface."

/-- Python IndexError raised at gordon.py line 54 when the segment list is
empty, and at lines 116-117 when a unified curve list is empty. -/
def errIndex : String := "IndexError: list index out of range"

/-- Python ValueError raised at gordon.py line 138 if unify_nurbs_surfaces
does not return exactly three surfaces to unpack. -/
def errUnpack : String := "ValueError: not enough values to unpack"

/-- Metric name literal used at gordon.py lines 61 and 100. -/
def metricPOINTS : String := "POINTS"

/-- Model of numpy searchsorted with its default side left, as used at
gordon.py line 36: on a non-decreasing array this is the number of leading
elements strictly below t, i.e. the leftmost insertion index for t. -/
def searchsorted (kv : List ℚ) (t : ℚ) : Nat :=
  match kv with
  | [] => 0
  | x :: rest => if x < t then searchsorted rest t + 1 else 0

/-- Inner function adjust of reparametrize_by_segments, gordon.py lines
35-45: snap t to the preceding knot when t is strictly within tolerance
above it, otherwise to the knot at the insertion index when that knot is
strictly within tolerance above t, otherwise keep t unchanged.  Out of
range reads cannot happen (0 < i and i < len are checked first); getD
supplies an arbitrary default. -/
def adjust (kv : List ℚ) (tolerance : ℚ) (t : ℚ) : ℚ :=
  let i := searchsorted kv t
  if 0 < i ∧ t - kv.getD (i - 1) 0 < tolerance then kv.getD (i - 1) 0
  else if i < kv.length ∧ kv.getD i 0 - t < tolerance then kv.getD i 0
  else t

/-- Breakpoint list after tolerance snapping, gordon.py line 47. -/
def adjusted_breakpoints (kv : List ℚ) (tolerance : ℚ) (ts : List ℚ) : List ℚ :=
  ts.map (adjust kv tolerance)

/-- reparametrize_by_segments, gordon.py lines 21-58: snap the breakpoints
to nearby knots, cut the curve at each consecutive pair of snapped
breakpoints (cut_segment with rescale=True), and concatenate the segments
left to right.  With fewer than two breakpoints the pair list is empty and
the Python code raises IndexError at segments[0]; that exception is the
error value here.  The t_min/t_max of line 29 are computed but never used
by the Python code and are omitted. -/
def reparametrize_by_segments (lib : Collab) (curve : Curve) (t_values : List ℚ)
    (tolerance : ℚ) : Except String Curve :=
  let kv := curve.knotvector
  let ts := adjusted_breakpoints kv tolerance t_values
  let segments := (List.zip ts ts.tail).map (fun p => lib.cut_segment curve p.1 p.2)
  match segments with
  | [] => Except.error errIndex
  | s :: rest => Except.ok (rest.foldl lib.concatenate s)

/-- Curve list unification, gordon.py lines 111-114: degree unification
followed by knot vector unification at the given accuracy. -/
def unify_curve_list (lib : Collab) (cs : List Curve) (accuracy : Nat) : List Curve :=
  lib.unify_curves (lib.unify_curves_degree cs) accuracy

/-- Elementwise sum of two control point grids (numpy + on arrays of equal
shape; zipWith truncates instead of raising on mismatched shapes). -/
def grid_add (A B : Grid) : Grid :=
  List.zipWith (fun ra rb => List.zipWith (fun p q => p + q) ra rb) A B

/-- Elementwise difference of two control point grids (numpy - on arrays). -/
def grid_sub (A B : Grid) : Grid :=
  List.zipWith (fun ra rb => List.zipWith (fun p q => p - q) ra rb) A B

/-- gordon.py lines 111-150: the assembly stage of gordon_surface run after
validation and optional reparametrization.  Unifies both curve lists, reads
the common degrees from the first curves (IndexError when a unified list is
empty), builds the two lofts and the grid interpolation, unifies the three
surfaces, and combines control points by the Boolean sum
lofted_u + lofted_v - interpolated, building the final surface with the
NATIVE implementation from the unified interpolated surface's degrees and
knot vectors.  Python's len(intersections[0]) raises on an empty grid; an
empty grid is modelled as m = 0, a path no theorem relies on. -/
def gordon_assemble (lib : Collab) (u_curves v_curves : List Curve)
    (intersections : Grid) (metric : String) (knotvector_accuracy : Nat) :
    Except String (Surface × Surface × Surface × Surface) :=
  let ucs := unify_curve_list lib u_curves knotvector_accuracy
  let vcs := unify_curve_list lib v_curves knotvector_accuracy
  match ucs.head?, vcs.head? with
  | some u0, some v0 =>
      let u_curves_degree := u0.degree
      let v_curves_degree := v0.degree
      let n := intersections.length
      let m := (intersections.headD []).length
      let loft_v_degree := min (ucs.length - 1) v_curves_degree
      let loft_u_degree := min (vcs.length - 1) u_curves_degree
      let lofted_v := lib.simple_loft ucs loft_v_degree knotvector_accuracy metric
      let lofted_u := lib.swap_uv (lib.simple_loft vcs loft_u_degree knotvector_accuracy metric)
      let int_degree_u := min (m - 1) u_curves_degree
      let int_degree_v := min (n - 1) v_curves_degree
      let interpolated := lib.swap_uv (lib.interpolate_nurbs_surface int_degree_u int_degree_v intersections metric)
      match lib.unify_nurbs_surfaces [lofted_u, lofted_v, interpolated] knotvector_accuracy with
      | [lu, lv, itp] =>
          let control_points := grid_sub (grid_add lu.control_points lv.control_points) itp.control_points
          Except.ok (lu, lv, itp,
            SvNurbsSurface.build Impl.NATIVE itp.degree_u itp.degree_v
              itp.knotvector_u itp.knotvector_v control_points none)
      | _ => Except.error errUnpack
  | _, _ => Except.error errIndex

/-- gordon.py lines 99-109: when the knot arrays are provided, every curve
is reparametrized by its own knot list and the metric for all three kwargs
dictionaries is the literal POINTS; otherwise the caller's metric is used
and the curves are kept.  Returns (effective metric, u curves, v curves).
The logger entry added to the kwargs at line 109 is a side channel and is
not modelled. -/
def gordon_effective_curves (lib : Collab) (u_curves v_curves : List Curve)
    (metric : String) (u_knots v_knots : Option (List (List ℚ))) (tolerance : ℚ) :
    Except String (String × List Curve × List Curve) :=
  match u_knots, v_knots with
  | some uks, some vks =>
      match (List.zip u_curves uks).mapM (fun p => reparametrize_by_segments lib p.1 p.2 tolerance),
            (List.zip v_curves vks).mapM (fun p => reparametrize_by_segments lib p.1 p.2 tolerance) with
      | Except.ok us, Except.ok vs => Except.ok (metricPOINTS, us, vs)
      | Except.error e, _ => Except.error e
      | _, Except.error e => Except.error e
  | _, _ => Except.ok (metric, u_curves, v_curves)

/-- gordon_surface, gordon.py lines 60-150: validate (non-empty curve
lists; u_knots and v_knots both present or both absent; no rational
curves), then reparametrize when knots are given, then assemble.  The
implementation parameter of line 65 is accepted and never used: the final
surface is always built with SvNurbsSurface.NATIVE (line 144). -/
def gordon_surface (lib : Collab) (u_curves v_curves : List Curve)
    (intersections : Grid) (metric : String)
    (u_knots v_knots : Option (List (List ℚ)))
    (knotvector_accuracy : Nat) (reparametrize_tolerance : ℚ)
    (implementation : Impl) :
    Except String (Surface × Surface × Surface × Surface) :=
  if u_curves.isEmpty || v_curves.isEmpty then Except.error errNoCurves
  else if u_knots.isNone != v_knots.isNone then Except.error errKnots
  else if u_curves.any Curve.is_rational then Except.error errRationalU
  else if v_curves.any Curve.is_rational then Except.error errRationalV
  else
    match gordon_effective_curves lib u_curves v_curves metric u_knots v_knots reparametrize_tolerance with
    | Except.ok (m, ucs, vcs) => gordon_assemble lib ucs vcs intersections m knotvector_accuracy
    | Except.error e => Except.error e

/-- Model of numpy linspace(a, b, num): num evenly spaced samples from a to
b inclusive, as used at gordon.py lines 154 and 157. -/
def linspace (a b : ℚ) (num : Nat) : List ℚ :=
  if num ≤ 1 then (List.range num).map (fun _ => a)
  else (List.range num).map (fun k => a + (b - a) * k / ((num : ℚ) - 1))

/-- Scalar multiple of a 3D point. -/
def smul3 (c : ℚ) (p : Point3) : Point3 := (c * p.1, c * p.2.1, c * p.2.2)

/-- Model of numpy transpose with axes (1,0,2) on an array of shape
(len a, len row, 3), as used at gordon.py lines 170 and 194: entry (i,j)
of the result is entry (j,i) of the input.  numpy requires all rows to have
equal length; getD supplies a default outside that case. -/
def np_transpose_102 (a : Grid) : Grid :=
  match a.head? with
  | none => []
  | some r0 => (List.range r0.length).map (fun i => a.map (fun row => row.getD i (0, 0, 0)))

/-- Intersection grid constructed by nurbs_blend_surfaces at gordon.py line
170: transpose (1,0,2) of the stack of the two rails' sample point rows. -/
def blend_intersection_grid (c1_points c2_points : List Point3) : Grid :=
  np_transpose_102 [c1_points, c2_points]

/-- Intersection grid constructed by nurbs_birail_by_gordon at gordon.py
lines 193-194: the end points of each prepared profile curve, stacked per
profile and then transposed with axes (1,0,2). -/
def birail_intersection_grid (lib : Collab) (u_curves : List Curve) : Grid :=
  np_transpose_102 (u_curves.map lib.get_end_points)

/-- nurbs_blend_surfaces, gordon.py lines 152-172: sample both rail curves
uniformly, take frames on their surfaces, scale unit binormals by the bulge
factors, interpolate the two rails as u curves, build one cubic Bezier
cross curve per sample pair as v curves, pair the sample points into the
intersection grid and delegate to gordon_surface, returning only its last
component. -/
def nurbs_blend_surfaces (lib : Collab) (surface1 surface2 : Surface)
    (curve1 curve2 : Curve) (bulge1 bulge2 : ℚ) (u_degree u_samples : Nat) :
    Except String Surface :=
  let b1 := lib.get_u_bounds curve1
  let ts1 := linspace b1.1 b1.2 u_samples
  let b2 := lib.get_u_bounds curve2
  let ts2 := linspace b2.1 b2.2 u_samples
  let f1 := lib.curve_frame_on_surface_array surface1 curve1 ts1
  let f2 := lib.curve_frame_on_surface_array surface2 curve2 ts2
  let c1_points := f1.1
  let c1_tangents := f1.2.1
  let c1_binormals := f1.2.2.map (fun b => smul3 bulge1 (lib.unit b))
  let c2_points := f2.1
  let c2_tangents := f2.2.1
  let c2_binormals := f2.2.2.map (fun b => smul3 bulge2 (lib.unit b))
  let curve1 := lib.interpolate_nurbs_curve_with_tangents u_degree c1_points c1_tangents ts1
  let curve2 := lib.interpolate_nurbs_curve_with_tangents u_degree c2_points c2_tangents ts2
  let u_curves := [curve1, curve2]
  let v_curves := (List.zip (List.zip c1_points c1_binormals) (List.zip c2_points c2_binormals)).map
      (fun pq => lib.bezier_from_control_points [pq.1.1, pq.1.1 + pq.1.2, pq.2.1 + pq.2.2, pq.2.1])
  let intersections := blend_intersection_grid c1_points c2_points
  (gordon_surface lib u_curves v_curves intersections metricPOINTS none none 6 (1/100) Impl.NATIVE).map
    (fun r => r.2.2.2)

/-- nurbs_birail_by_gordon, gordon.py lines 174-195: prepare the swept
profile family as u curves, take the two paths as v curves, derive the
intersection grid from the profile end points, and delegate to
gordon_surface, returning only its last component. -/
def nurbs_birail_by_gordon (lib : Collab) (path1 path2 : Curve)
    (profiles : List Curve) (ts1 ts2 : Option (List ℚ)) (min_profiles : Nat)
    (degree_v : Option Nat) (metric : String) (scale_uniform auto_rotate : Bool)
    (use_tangents : String) (implementation : Impl) : Except String Surface :=
  let u_curves := lib.prepare_nurbs_birail path1 path2 profiles ts1 ts2 min_profiles degree_v scale_uniform auto_rotate use_tangents
  let v_curves := [path1, path2]
  let intersections := birail_intersection_grid lib u_curves
  (gordon_surface lib u_curves v_curves intersections metric none none 6 (1/100) implementation).map
    (fun r => r.2.2.2)

/-- A concrete polynomial degree 1 curve used by witnesses. -/
def wCurve : Curve := ⟨1, [0, 0, 1, 1], false⟩

/-- A concrete rational curve used by witnesses. -/
def rCurve : Curve := ⟨1, [0, 0, 1, 1], true⟩

/-- A concrete bilinear surface used by witness collaborators. -/
def constSurface : Surface :=
  ⟨1, 1, [0, 0, 1, 1], [0, 0, 1, 1],
   [[(0, 0, 0), (1, 0, 0)], [(0, 1, 0), (1, 1, 0)]], none, Impl.NATIVE⟩

/-- A concrete surface with no control points, used by witness
collaborators so that the Boolean sum involves no rational arithmetic. -/
def emptySurface : Surface := ⟨1, 1, [0, 0, 1, 1], [0, 0, 1, 1], [], none, Impl.NATIVE⟩

/-- The concrete unified interpolated surface arising in the witness run of
gordon_surface over trivialLib with the one point grid [[(1,2,3)]]. -/
def w_itp : Surface := ⟨1, 1, [0, 0, 1, 1], [0, 0, 1, 1], [[(1, 2, 3)]], none, Impl.NATIVE⟩

/-- A concrete collaborator record used by witnesses: unifications are the
identity, lofts return a fixed surface, grid interpolation stores the grid
as control points, frames echo the sample parameters. -/
def trivialLib : Collab :=
  ⟨fun cs => cs,
   fun cs _ => cs,
   fun _ _ _ _ => emptySurface,
   fun _ _ g _ => ⟨1, 1, [0, 0, 1, 1], [0, 0, 1, 1], g, none, Impl.NATIVE⟩,
   fun ss _ => ss,
   fun s => s,
   fun c _ _ => c,
   fun c _ => c,
   fun _ => (0, 1),
   fun _ _ ts => (ts.map (fun t => (t, 0, 0)), ts.map (fun _ => (1, 0, 0)), ts.map (fun _ => (0, 0, 1))),
   fun p => p,
   fun d _ _ _ => ⟨d, [0, 0, 1, 1], false⟩,
   fun _ => ⟨3, [0, 0, 0, 0, 1, 1, 1, 1], false⟩,
   fun _ _ profiles _ _ _ _ _ _ _ => profiles,
   fun _ => [(0, 0, 0), (1, 1, 1)]⟩

/-- A second concrete collaborator record, differing from trivialLib in its
surface building operations, used by witnesses of collaborator independence. -/
def altLib : Collab :=
  ⟨fun _ => [],
   fun _ _ => [],
   fun _ _ _ _ => constSurface,
   fun _ _ _ _ => constSurface,
   fun _ _ => [],
   fun s => s,
   fun c _ _ => c,
   fun c _ => c,
   fun _ => (0, 1),
   fun _ _ _ => ([], [], []),
   fun p => p,
   fun d _ _ _ => ⟨d, [], false⟩,
   fun _ => ⟨3, [], false⟩,
   fun _ _ _ _ _ _ _ _ _ _ => [],
   fun _ => []⟩

/-- C9: for every input, the result of gordon_surface does not depend on
the implementation argument: two calls differing only in implementation
produce identical results, the implementation parameter being unused and
the final surface always built with SvNurbsSurface.NATIVE. -/
theorem gordon_surface_ignores_implementation (lib : Collab)
    (u_curves v_curves : List Curve) (intersections : Grid) (metric : String)
    (u_knots v_knots : Option (List (List ℚ))) (acc : Nat) (tol : ℚ)
    (impl impl' : Impl) :
    gordon_surface lib u_curves v_curves intersections metric u_knots v_knots acc tol impl =
    gordon_surface lib u_curves v_curves intersections metric u_knots v_knots acc tol impl' := rfl

/-- C8: when u_knots and v_knots are both supplied, the caller's metric
argument is ignored: the result is the same for any two metric values,
because the kwargs handed to both lofts and to the grid interpolation are
fixed to the POINTS metric in that branch. -/
theorem gordon_surface_metric_ignored_with_knots (lib : Collab)
    (u_curves v_curves : List Curve) (intersections : Grid)
    (metric metric' : String) (uks vks : List (List ℚ)) (acc : Nat) (tol : ℚ)
    (impl : Impl) :
    gordon_surface lib u_curves v_curves intersections metric (some uks) (some vks) acc tol impl =
    gordon_surface lib u_curves v_curves intersections metric' (some uks) (some vks) acc tol impl := rfl

/-- C7: for every curve and breakpoint list with fewer than two
breakpoints, reparametrize_by_segments fails with the IndexError raised at
segments[0] and returns no curve. -/
theorem reparametrize_by_segments_fails_short (lib : Collab) (curve : Curve)
    (t_values : List ℚ) (tolerance : ℚ) (h : t_values.length < 2) :
    reparametrize_by_segments lib curve t_values tolerance = Except.error errIndex := by
  cases t_values with
  | nil => rfl
  | cons a tl =>
      cases tl with
      | nil => rfl
      | cons b tl2 =>
          simp [List.length_cons] at h
          omega

/-- Witness for C7 at the concrete input of an empty breakpoint list. -/
theorem reparametrize_by_segments_fails_short_witness :
    reparametrize_by_segments trivialLib wCurve [] (1/100) = Except.error errIndex :=
  reparametrize_by_segments_fails_short trivialLib wCurve [] (1/100) (by decide)

/-- C4: for every input with at least one rational u curve or v curve,
gordon_surface fails before building any surface: it returns an error, and
the returned value does not depend on any collaborator operation, so no
surface, partial or otherwise, is produced. -/
theorem gordon_surface_rejects_rational (lib lib' : Collab)
    (u_curves v_curves : List Curve) (intersections : Grid) (metric : String)
    (u_knots v_knots : Option (List (List ℚ))) (acc : Nat) (tol : ℚ) (impl : Impl)
    (h : u_curves.any Curve.is_rational = true ∨ v_curves.any Curve.is_rational = true) :
    (∃ e, gordon_surface lib u_curves v_curves intersections metric u_knots v_knots acc tol impl = Except.error e) ∧
    gordon_surface lib u_curves v_curves intersections metric u_knots v_knots acc tol impl =
      gordon_surface lib' u_curves v_curves intersections metric u_knots v_knots acc tol impl := by
  unfold gordon_surface
  split_ifs with h1 h2 h3 h4
  · exact ⟨⟨errNoCurves, rfl⟩, rfl⟩
  · exact ⟨⟨errKnots, rfl⟩, rfl⟩
  · exact ⟨⟨errRationalU, rfl⟩, rfl⟩
  · exact ⟨⟨errRationalV, rfl⟩, rfl⟩
  · cases h with
    | inl hh => exact absurd hh h3
    | inr hh => exact absurd hh h4

/-- Witness for C4 at a concrete rational u curve, with two distinct
collaborator records. -/
theorem gordon_surface_rejects_rational_witness :
    (∃ e, gordon_surface trivialLib [rCurve] [wCurve] [[(0, 0, 0)]] metricPOINTS none none 6 (1/100) Impl.NATIVE = Except.error e) ∧
    gordon_surface trivialLib [rCurve] [wCurve] [[(0, 0, 0)]] metricPOINTS none none 6 (1/100) Impl.NATIVE =
      gordon_surface altLib [rCurve] [wCurve] [[(0, 0, 0)]] metricPOINTS none none 6 (1/100) Impl.NATIVE :=
  gordon_surface_rejects_rational trivialLib altLib [rCurve] [wCurve] [[(0, 0, 0)]]
    metricPOINTS none none 6 (1/100) Impl.NATIVE (Or.inl (by decide))

/-- C5: for every input where exactly one of u_knots and v_knots is
supplied, gordon_surface fails with an invalid input error and returns no
surface, independently of every collaborator operation; the hypothesis is
symmetric in the two directions. -/
theorem gordon_surface_rejects_mismatched_knots (lib lib' : Collab)
    (u_curves v_curves : List Curve) (intersections : Grid) (metric : String)
    (u_knots v_knots : Option (List (List ℚ))) (acc : Nat) (tol : ℚ) (impl : Impl)
    (h : u_knots.isNone ≠ v_knots.isNone) :
    (∃ e, gordon_surface lib u_curves v_curves intersections metric u_knots v_knots acc tol impl = Except.error e) ∧
    gordon_surface lib u_curves v_curves intersections metric u_knots v_knots acc tol impl =
      gordon_surface lib' u_curves v_curves intersections metric u_knots v_knots acc tol impl := by
  unfold gordon_surface
  split_ifs with h1 h2 h3 h4
  · exact ⟨⟨errNoCurves, rfl⟩, rfl⟩
  · exact ⟨⟨errKnots, rfl⟩, rfl⟩
  · exact absurd (bne_iff_ne.mpr h) h2
  · exact absurd (bne_iff_ne.mpr h) h2
  · exact absurd (bne_iff_ne.mpr h) h2

/-- Witness for C5 at a concrete input supplying only u_knots. -/
theorem gordon_surface_rejects_mismatched_knots_witness :
    (∃ e, gordon_surface trivialLib [wCurve] [wCurve] [[(0, 0, 0)]] metricPOINTS (some [[0, 1]]) none 6 (1/100) Impl.NATIVE = Except.error e) ∧
    gordon_surface trivialLib [wCurve] [wCurve] [[(0, 0, 0)]] metricPOINTS (some [[0, 1]]) none 6 (1/100) Impl.NATIVE =
      gordon_surface altLib [wCurve] [wCurve] [[(0, 0, 0)]] metricPOINTS (some [[0, 1]]) none 6 (1/100) Impl.NATIVE :=
  gordon_surface_rejects_mismatched_knots trivialLib altLib [wCurve] [wCurve] [[(0, 0, 0)]]
    metricPOINTS (some [[0, 1]]) none 6 (1/100) Impl.NATIVE (by decide)

/-- C10: the snapping in adjust prefers the knot below the breakpoint when
both neighbouring knots are strictly within tolerance, whatever their
relative distances, and both comparisons are strict, so a knot lying
exactly tolerance away on its side is not snapped to. -/
theorem adjust_prefers_lower_and_is_strict (kv : List ℚ) (tolerance t : ℚ) :
    (0 < searchsorted kv t → searchsorted kv t < kv.length →
      t - kv.getD (searchsorted kv t - 1) 0 < tolerance →
      kv.getD (searchsorted kv t) 0 - t < tolerance →
      adjust kv tolerance t = kv.getD (searchsorted kv t - 1) 0) ∧
    (0 < searchsorted kv t →
      tolerance ≤ t - kv.getD (searchsorted kv t - 1) 0 →
      (searchsorted kv t < kv.length → tolerance ≤ kv.getD (searchsorted kv t) 0 - t) →
      adjust kv tolerance t = t) := by
  constructor
  · intro h1 _ h3 _
    unfold adjust
    rw [if_pos ⟨h1, h3⟩]
  · intro h1 h2 h3
    unfold adjust
    rw [if_neg, if_neg]
    · intro hc
      exact absurd (h3 hc.1) (not_le.mpr hc.2)
    · intro hc
      exact absurd h2 (not_le.mpr hc.2)

/-- Witness for C10: with knots 0 and 10, tolerance 7 and breakpoint 6
both knots are strictly within tolerance and the upper knot is the closer
one (distance 4 against 6), yet the result is the lower knot; with
tolerance 4 and breakpoint 4 the lower knot lies exactly tolerance away
and nothing is snapped. -/
theorem adjust_prefers_lower_and_is_strict_witness :
    (adjust [0, 10] 7 6 = List.getD [0, 10] (searchsorted [0, 10] 6 - 1) 0) ∧
    adjust [0, 10] 4 4 = 4 :=
  ⟨(adjust_prefers_lower_and_is_strict [0, 10] 7 6).1
      (by decide) (by decide) (by norm_num [searchsorted]) (by norm_num [searchsorted]),
   (adjust_prefers_lower_and_is_strict [0, 10] 4 4).2
      (by decide) (by norm_num [searchsorted]) (by norm_num [searchsorted])⟩

/-- Helper: the insertion index never exceeds the array length. -/
theorem searchsorted_le_length (kv : List ℚ) (t : ℚ) : searchsorted kv t ≤ kv.length := by
  induction kv with
  | nil => simp [searchsorted]
  | cons x rest ih =>
      by_cases h : x < t
      · simp only [searchsorted, h, if_true, List.length_cons]
        omega
      · simp [searchsorted, h]

/-- Helper: every element before the insertion index is strictly below t. -/
theorem getD_lt_of_lt_searchsorted (kv : List ℚ) (t : ℚ) (j : Nat)
    (hj : j < searchsorted kv t) : kv.getD j 0 < t := by
  induction kv generalizing j with
  | nil => simp [searchsorted] at hj
  | cons x rest ih =>
      by_cases h : x < t
      · cases j with
        | zero => simpa using h
        | succ j' =>
            simp only [searchsorted, h, if_true] at hj
            simpa using ih j' (by omega)
      · simp [searchsorted, h] at hj

/-- Helper: the element at the insertion index, when it exists, is at least t. -/
theorem le_getD_searchsorted (kv : List ℚ) (t : ℚ)
    (h : searchsorted kv t < kv.length) : t ≤ kv.getD (searchsorted kv t) 0 := by
  induction kv with
  | nil => simp [searchsorted] at h
  | cons x rest ih =>
      by_cases hx : x < t
      · have h' : searchsorted rest t < rest.length := by
          simp only [searchsorted, hx, if_true, List.length_cons] at h
          omega
        simpa [searchsorted, hx] using ih h'
      · simpa [searchsorted, hx] using le_of_not_lt hx

/-- Helper: an in-bounds getD read is a member of the list. -/
theorem getD_mem_of_lt (l : List ℚ) (j : Nat) (hj : j < l.length) : l.getD j 0 ∈ l := by
  induction l generalizing j with
  | nil => simp at hj
  | cons x rest ih =>
      cases j with
      | zero => simp
      | succ j' =>
          simp only [List.getD_cons_succ]
          exact List.mem_cons_of_mem _ (ih j' (by simpa using hj))

/-- Helper: every member of a list is an in-bounds getD read. -/
theorem exists_getD_of_mem (l : List ℚ) (k : ℚ) (h : k ∈ l) :
    ∃ j, j < l.length ∧ l.getD j 0 = k := by
  induction l with
  | nil => simp at h
  | cons x rest ih =>
      rcases List.mem_cons.mp h with rfl | h'
      · exact ⟨0, by simp, by simp⟩
      · obtain ⟨j, hj, hk⟩ := ih h'
        exact ⟨j + 1, by simpa using hj, by simpa using hk⟩

/-- Helper: getD reads of a non-decreasing list are monotone in the index. -/
theorem sorted_getD_mono (kv : List ℚ) (hs : List.Sorted (· ≤ ·) kv) (j j' : Nat)
    (hjj : j ≤ j') (hj' : j' < kv.length) : kv.getD j 0 ≤ kv.getD j' 0 := by
  rcases eq_or_lt_of_le hjj with rfl | hlt
  · exact le_refl _
  · have hj : j < kv.length := lt_trans hlt hj'
    have := List.pairwise_iff_getElem.mp hs j j' hj hj' hlt
    rw [List.getD_eq_getElem _ _ hj, List.getD_eq_getElem _ _ hj']
    exact this

/-- Helper: when neither branch of adjust snaps, no knot of the sorted knot
vector lies strictly within tolerance of the breakpoint. -/
theorem adjust_no_knot_within (kv : List ℚ) (tolerance t : ℚ)
    (hs : List.Sorted (· ≤ ·) kv)
    (h1 : ¬(0 < searchsorted kv t ∧ t - kv.getD (searchsorted kv t - 1) 0 < tolerance))
    (h2 : ¬(searchsorted kv t < kv.length ∧ kv.getD (searchsorted kv t) 0 - t < tolerance)) :
    ∀ k ∈ kv, tolerance ≤ |t - k| := by
  intro k hk
  by_contra hlt
  push_neg at hlt
  obtain ⟨j, hj, rfl⟩ := exists_getD_of_mem kv k hk
  by_cases hc : kv.getD j 0 < t
  · have hji : j < searchsorted kv t := by
      by_contra hge
      push_neg at hge
      have hi : searchsorted kv t < kv.length := lt_of_le_of_lt hge hj
      have ht := le_getD_searchsorted kv t hi
      have hmono := sorted_getD_mono kv hs (searchsorted kv t) j hge hj
      linarith
    have hi0 : 0 < searchsorted kv t := by omega
    have him1 : searchsorted kv t - 1 < kv.length := by
      have := searchsorted_le_length kv t
      omega
    have hle : kv.getD j 0 ≤ kv.getD (searchsorted kv t - 1) 0 :=
      sorted_getD_mono kv hs j (searchsorted kv t - 1) (by omega) him1
    have habs : |t - kv.getD j 0| = t - kv.getD j 0 := abs_of_pos (by linarith)
    rw [habs] at hlt
    exact h1 ⟨hi0, by linarith⟩
  · push_neg at hc
    have hij : searchsorted kv t ≤ j := by
      by_contra hgt
      push_neg at hgt
      have := getD_lt_of_lt_searchsorted kv t j hgt
      linarith
    have hi : searchsorted kv t < kv.length := lt_of_le_of_lt hij hj
    have hle : kv.getD (searchsorted kv t) 0 ≤ kv.getD j 0 :=
      sorted_getD_mono kv hs (searchsorted kv t) j hij hj
    have habs : |t - kv.getD j 0| = kv.getD j 0 - t := by
      rw [abs_sub_comm]
      exact abs_of_nonneg (by linarith)
    rw [habs] at hlt
    exact h2 ⟨hi, by linarith⟩

/-- Helper: case analysis of adjust on a sorted knot vector: when some knot
is strictly within tolerance the result is such a knot, otherwise the
breakpoint is returned unchanged. -/
theorem adjust_snap_cases (kv : List ℚ) (tolerance t : ℚ)
    (hs : List.Sorted (· ≤ ·) kv) :
    ((∃ k ∈ kv, |t - k| < tolerance) →
        adjust kv tolerance t ∈ kv ∧ |t - adjust kv tolerance t| < tolerance) ∧
    ((∀ k ∈ kv, tolerance ≤ |t - k|) → adjust kv tolerance t = t) := by
  by_cases h1 : 0 < searchsorted kv t ∧ t - kv.getD (searchsorted kv t - 1) 0 < tolerance
  · have hres : adjust kv tolerance t = kv.getD (searchsorted kv t - 1) 0 := by
      unfold adjust
      rw [if_pos h1]
    have him1 : searchsorted kv t - 1 < kv.length := by
      have := searchsorted_le_length kv t
      omega
    have hmem : kv.getD (searchsorted kv t - 1) 0 ∈ kv := getD_mem_of_lt kv _ him1
    have hbelow : kv.getD (searchsorted kv t - 1) 0 < t :=
      getD_lt_of_lt_searchsorted kv t _ (by omega)
    have habs : |t - kv.getD (searchsorted kv t - 1) 0| = t - kv.getD (searchsorted kv t - 1) 0 :=
      abs_of_pos (by linarith)
    constructor
    · intro _
      rw [hres]
      exact ⟨hmem, by rw [habs]; exact h1.2⟩
    · intro hall
      have := hall _ hmem
      rw [habs] at this
      linarith [h1.2]
  · by_cases h2 : searchsorted kv t < kv.length ∧ kv.getD (searchsorted kv t) 0 - t < tolerance
    · have hres : adjust kv tolerance t = kv.getD (searchsorted kv t) 0 := by
        unfold adjust
        rw [if_neg h1, if_pos h2]
      have hmem : kv.getD (searchsorted kv t) 0 ∈ kv := getD_mem_of_lt kv _ h2.1
      have habove : t ≤ kv.getD (searchsorted kv t) 0 := le_getD_searchsorted kv t h2.1
      have habs : |t - kv.getD (searchsorted kv t) 0| = kv.getD (searchsorted kv t) 0 - t := by
        rw [abs_sub_comm]
        exact abs_of_nonneg (by linarith)
      constructor
      · intro _
        rw [hres]
        exact ⟨hmem, by rw [habs]; exact h2.2⟩
      · intro hall
        have := hall _ hmem
        rw [habs] at this
        linarith [h2.2]
    · have hres : adjust kv tolerance t = t := by
        unfold adjust
        rw [if_neg h1, if_neg h2]
      have hnone := adjust_no_knot_within kv tolerance t hs h1 h2
      constructor
      · intro ⟨k, hk, hklt⟩
        exact absurd (hnone k hk) (not_le.mpr hklt)
      · intro _
        exact hres

/-- C6: for every curve with a non-decreasing knot vector, every breakpoint
list and tolerance, the reparametrizer snaps each breakpoint into the
adjusted breakpoint list as follows: when some knot of the curve's knot
vector lies strictly within tolerance of the breakpoint on either side,
the adjusted value is such a knot; otherwise the breakpoint is left
unchanged. -/
theorem reparametrize_adjusts_breakpoints (curve : Curve) (ts : List ℚ)
    (tolerance t : ℚ) (hs : List.Sorted (· ≤ ·) curve.knotvector) (ht : t ∈ ts) :
    adjust curve.knotvector tolerance t ∈ adjusted_breakpoints curve.knotvector tolerance ts ∧
    ((∃ k ∈ curve.knotvector, |t - k| < tolerance) →
        adjust curve.knotvector tolerance t ∈ curve.knotvector ∧
        |t - adjust curve.knotvector tolerance t| < tolerance) ∧
    ((∀ k ∈ curve.knotvector, tolerance ≤ |t - k|) →
        adjust curve.knotvector tolerance t = t) := by
  refine ⟨?_, adjust_snap_cases curve.knotvector tolerance t hs⟩
  unfold adjusted_breakpoints
  exact List.mem_map_of_mem _ ht

/-- Witness for C6: for the knot vector [0,0,1,1] of wCurve, the breakpoint
2 with tolerance 3 lies within tolerance of knot 1 and is snapped to it. -/
theorem reparametrize_adjusts_breakpoints_witness :
    adjust wCurve.knotvector 3 2 ∈ adjusted_breakpoints wCurve.knotvector 3 [2] ∧
    ((∃ k ∈ wCurve.knotvector, |(2:ℚ) - k| < 3) →
        adjust wCurve.knotvector 3 2 ∈ wCurve.knotvector ∧
        |(2:ℚ) - adjust wCurve.knotvector 3 2| < 3) ∧
    ((∀ k ∈ wCurve.knotvector, (3:ℚ) ≤ |(2:ℚ) - k|) →
        adjust wCurve.knotvector 3 2 = 2) :=
  reparametrize_adjusts_breakpoints wCurve [2] 3 2 (by decide) (by decide)

/-- Helper: a successful gordon_assemble run determines its pieces: the
three returned surfaces are the unification of the two lofts (built from
the unified curve lists with the transverse degrees of gordon.py lines
121-122) and the swapped grid interpolation, and the final surface is
built with the NATIVE implementation from the unified interpolated
surface's knot data and the Boolean sum of control points. -/
theorem gordon_assemble_ok (lib : Collab) (uc vc : List Curve) (grid : Grid)
    (metric : String) (acc : Nat) (lu lv itp res : Surface)
    (h : gordon_assemble lib uc vc grid metric acc = Except.ok (lu, lv, itp, res)) :
    (∃ u0 v0,
      (unify_curve_list lib uc acc).head? = some u0 ∧
      (unify_curve_list lib vc acc).head? = some v0 ∧
      [lu, lv, itp] = lib.unify_nurbs_surfaces
        [lib.swap_uv (lib.simple_loft (unify_curve_list lib vc acc)
            (min ((unify_curve_list lib vc acc).length - 1) u0.degree) acc metric),
         lib.simple_loft (unify_curve_list lib uc acc)
            (min ((unify_curve_list lib uc acc).length - 1) v0.degree) acc metric,
         lib.swap_uv (lib.interpolate_nurbs_surface
            (min ((grid.headD []).length - 1) u0.degree)
            (min (grid.length - 1) v0.degree) grid metric)] acc) ∧
    res = SvNurbsSurface.build Impl.NATIVE itp.degree_u itp.degree_v
        itp.knotvector_u itp.knotvector_v
        (grid_sub (grid_add lu.control_points lv.control_points) itp.control_points) none := by
  simp only [gordon_assemble] at h
  split at h
  · rename_i u0 v0 hu hv
    split at h
    · rename_i a b c heq
      rw [Except.ok.injEq, Prod.mk.injEq, Prod.mk.injEq, Prod.mk.injEq] at h
      obtain ⟨rfl, rfl, rfl, rfl⟩ := h
      exact ⟨⟨u0, v0, hu, hv, heq.symm⟩, rfl⟩
    · exact Except.noConfusion h
  · exact Except.noConfusion h

/-- Helper: a successful gordon_surface run factors through a successful
gordon_effective_curves run followed by a successful gordon_assemble run. -/
theorem gordon_surface_ok_factor (lib : Collab) (u_curves v_curves : List Curve)
    (intersections : Grid) (metric : String) (u_knots v_knots : Option (List (List ℚ)))
    (acc : Nat) (tol : ℚ) (impl : Impl) (lu lv itp res : Surface)
    (h : gordon_surface lib u_curves v_curves intersections metric u_knots v_knots acc tol impl = Except.ok (lu, lv, itp, res)) :
    ∃ m ucs vcs,
      gordon_effective_curves lib u_curves v_curves metric u_knots v_knots tol = Except.ok (m, ucs, vcs) ∧
      gordon_assemble lib ucs vcs intersections m acc = Except.ok (lu, lv, itp, res) := by
  unfold gordon_surface at h
  split_ifs at h
  all_goals first
    | exact Except.noConfusion h
    | (split at h
       · rename_i m ucs vcs heff
         exact ⟨m, ucs, vcs, heff, h⟩
       · exact Except.noConfusion h)

/-- C1: every successful gordon_surface call returns the four surfaces
(lofted_u, lofted_v, interpolated, result) where the result's control
point grid is the elementwise Boolean sum lofted_u + lofted_v -
interpolated of the unified surfaces' grids, and the result's degree pair
and both knot vectors are taken from the unified interpolated surface. -/
theorem gordon_surface_boolean_sum (lib : Collab) (u_curves v_curves : List Curve)
    (intersections : Grid) (metric : String) (u_knots v_knots : Option (List (List ℚ)))
    (acc : Nat) (tol : ℚ) (impl : Impl) (lu lv itp res : Surface)
    (h : gordon_surface lib u_curves v_curves intersections metric u_knots v_knots acc tol impl = Except.ok (lu, lv, itp, res)) :
    res.control_points = grid_sub (grid_add lu.control_points lv.control_points) itp.control_points ∧
    res.degree_u = itp.degree_u ∧ res.degree_v = itp.degree_v ∧
    res.knotvector_u = itp.knotvector_u ∧ res.knotvector_v = itp.knotvector_v := by
  obtain ⟨m, ucs, vcs, heff, hasm⟩ :=
    gordon_surface_ok_factor lib u_curves v_curves intersections metric u_knots v_knots acc tol impl lu lv itp res h
  obtain ⟨_, hres⟩ := gordon_assemble_ok lib ucs vcs intersections m acc lu lv itp res hasm
  rw [hres]
  exact ⟨rfl, rfl, rfl, rfl, rfl⟩

/-- Witness for C1 at a concrete successful run over trivialLib. -/
theorem gordon_surface_boolean_sum_witness :
    emptySurface.control_points = grid_sub (grid_add emptySurface.control_points emptySurface.control_points) w_itp.control_points ∧
    emptySurface.degree_u = w_itp.degree_u ∧ emptySurface.degree_v = w_itp.degree_v ∧
    emptySurface.knotvector_u = w_itp.knotvector_u ∧ emptySurface.knotvector_v = w_itp.knotvector_v :=
  gordon_surface_boolean_sum trivialLib [wCurve] [wCurve] [[(1, 2, 3)]] metricPOINTS
    none none 6 (1/100) Impl.NATIVE emptySurface emptySurface w_itp emptySurface rfl

/-- C3: in every successful gordon_surface run, lofted_v is built by
lofting the unified u curves with transverse degree
min(len(u_curves) - 1, v_curves_degree), lofted_u is built by lofting the
unified v curves with transverse degree min(len(v_curves) - 1,
u_curves_degree) and then swapped, where the common degrees are those of
the first curves of the unified sets; the returned lofted_u and lofted_v
are these two surfaces after surface unification together with the swapped
grid interpolation. -/
theorem gordon_surface_loft_degrees (lib : Collab) (u_curves v_curves : List Curve)
    (intersections : Grid) (metric : String) (u_knots v_knots : Option (List (List ℚ)))
    (acc : Nat) (tol : ℚ) (impl : Impl) (lu lv itp res : Surface)
    (h : gordon_surface lib u_curves v_curves intersections metric u_knots v_knots acc tol impl = Except.ok (lu, lv, itp, res)) :
    ∃ m ucs0 vcs0 u0 v0,
      gordon_effective_curves lib u_curves v_curves metric u_knots v_knots tol = Except.ok (m, ucs0, vcs0) ∧
      (unify_curve_list lib ucs0 acc).head? = some u0 ∧
      (unify_curve_list lib vcs0 acc).head? = some v0 ∧
      [lu, lv, itp] = lib.unify_nurbs_surfaces
        [lib.swap_uv (lib.simple_loft (unify_curve_list lib vcs0 acc)
            (min ((unify_curve_list lib vcs0 acc).length - 1) u0.degree) acc m),
         lib.simple_loft (unify_curve_list lib ucs0 acc)
            (min ((unify_curve_list lib ucs0 acc).length - 1) v0.degree) acc m,
         lib.swap_uv (lib.interpolate_nurbs_surface
            (min ((intersections.headD []).length - 1) u0.degree)
            (min (intersections.length - 1) v0.degree) intersections m)] acc := by
  obtain ⟨m, ucs, vcs, heff, hasm⟩ :=
    gordon_surface_ok_factor lib u_curves v_curves intersections metric u_knots v_knots acc tol impl lu lv itp res h
  obtain ⟨⟨u0, v0, hu, hv, heq⟩, _⟩ := gordon_assemble_ok lib ucs vcs intersections m acc lu lv itp res hasm
  exact ⟨m, ucs, vcs, u0, v0, heff, hu, hv, heq⟩

/-- Witness for C3 at a concrete successful run over trivialLib. -/
theorem gordon_surface_loft_degrees_witness :
    ∃ m ucs0 vcs0 u0 v0,
      gordon_effective_curves trivialLib [wCurve] [wCurve] metricPOINTS none none (1/100) = Except.ok (m, ucs0, vcs0) ∧
      (unify_curve_list trivialLib ucs0 6).head? = some u0 ∧
      (unify_curve_list trivialLib vcs0 6).head? = some v0 ∧
      [emptySurface, emptySurface, w_itp] = trivialLib.unify_nurbs_surfaces
        [trivialLib.swap_uv (trivialLib.simple_loft (unify_curve_list trivialLib vcs0 6)
            (min ((unify_curve_list trivialLib vcs0 6).length - 1) u0.degree) 6 m),
         trivialLib.simple_loft (unify_curve_list trivialLib ucs0 6)
            (min ((unify_curve_list trivialLib ucs0 6).length - 1) v0.degree) 6 m,
         trivialLib.swap_uv (trivialLib.interpolate_nurbs_surface
            (min ((List.headD [[((1:ℚ), (2:ℚ), (3:ℚ))]] []).length - 1) u0.degree)
            (min (List.length [[((1:ℚ), (2:ℚ), (3:ℚ))]] - 1) v0.degree) [[(1, 2, 3)]] m)] 6 :=
  gordon_surface_loft_degrees trivialLib [wCurve] [wCurve] [[(1, 2, 3)]] metricPOINTS
    none none 6 (1/100) Impl.NATIVE emptySurface emptySurface w_itp emptySurface rfl

/-- C2 (amended): the intersection grids handed to gordon_surface by the
two builders are the transposes of the grids the claim describes.  For the
blend builder the grid pairs the sample points rowwise: row i is
[c1_points i, c2_points i], one row per v curve (cross curve) and one
column per u curve (rail).  For the birail builder the grid has exactly
two rows, one per v curve (path), and row i lists, for each prepared
profile (u curve), its end point on path i. -/
theorem builders_intersection_grids (lib : Collab) (c1_points c2_points : List Point3)
    (hlen : c1_points.length = c2_points.length)
    (u_curves : List Curve) (u0 : Curve) (hu : u_curves.head? = some u0)
    (he : ∀ c ∈ u_curves, (lib.get_end_points c).length = 2) :
    (blend_intersection_grid c1_points c2_points =
        List.zipWith (fun p q => [p, q]) c1_points c2_points ∧
      (blend_intersection_grid c1_points c2_points).length = c1_points.length) ∧
    (birail_intersection_grid lib u_curves =
        [u_curves.map (fun c => (lib.get_end_points c).getD 0 (0, 0, 0)),
         u_curves.map (fun c => (lib.get_end_points c).getD 1 (0, 0, 0))] ∧
      (birail_intersection_grid lib u_curves).length = 2) := by
  constructor
  · constructor
    · apply List.ext_getElem
      · simp [blend_intersection_grid, np_transpose_102, hlen]
      · intro i hi1 hi2
        have hic1 : i < c1_points.length := by
          simpa [blend_intersection_grid, np_transpose_102] using hi1
        have hic2 : i < c2_points.length := hlen ▸ hic1
        simp [blend_intersection_grid, np_transpose_102, List.getElem_map,
              List.getElem_range, List.getElem_zipWith,
              List.getElem?_eq_getElem hic1, List.getElem?_eq_getElem hic2,
              List.getD_eq_getElem _ _ hic1, List.getD_eq_getElem _ _ hic2]
    · simp [blend_intersection_grid, np_transpose_102]
  · obtain ⟨u1, rest, rfl⟩ : ∃ u1 rest, u_curves = u1 :: rest := by
      cases u_curves with
      | nil => simp at hu
      | cons a l => exact ⟨a, l, rfl⟩
    have h2 : (lib.get_end_points u1).length = 2 := he u1 (List.mem_cons_self _ _)
    constructor
    · unfold birail_intersection_grid np_transpose_102
      simp only [List.map_cons, List.head?_cons, h2]
      rw [show List.range 2 = [0, 1] from rfl]
      simp [List.map_map, Function.comp]
    · unfold birail_intersection_grid np_transpose_102
      simp [List.map_cons, List.head?_cons, h2]

/-- Counterexample for C2 as stated: for a blend with u_samples = 3 the
builder has 2 u curves and 3 v curves, but the grid handed to the
assembler has 3 rows, not 2, and its entry (0,1) is sample 0 of the second
rail, not the claimed meeting point of u curve 0 with v curve 1 (which is
sample 1 of the first rail). -/
theorem builders_intersection_grids_counterexample :
    (blend_intersection_grid [(0, 0, 0), (1, 0, 0), (2, 0, 0)] [(0, 1, 0), (1, 1, 0), (2, 1, 0)]).length = 3 ∧
    (3 : Nat) ≠ 2 ∧
    ((blend_intersection_grid [(0, 0, 0), (1, 0, 0), (2, 0, 0)] [(0, 1, 0), (1, 1, 0), (2, 1, 0)]).getD 0 []).getD 1 (0, 0, 0) = (0, 1, 0) ∧
    ((0 : ℚ), (1 : ℚ), (0 : ℚ)) ≠ ((1 : ℚ), (0 : ℚ), (0 : ℚ)) := by
  decide

/-- Witness for the amended C2 at concrete sample points and one profile
curve over trivialLib. -/
theorem builders_intersection_grids_witness :
    (blend_intersection_grid [(0, 0, 0), (1, 0, 0), (2, 0, 0)] [(0, 1, 0), (1, 1, 0), (2, 1, 0)] =
        List.zipWith (fun p q => [p, q]) [(0, 0, 0), (1, 0, 0), (2, 0, 0)] [(0, 1, 0), (1, 1, 0), (2, 1, 0)] ∧
      (blend_intersection_grid [(0, 0, 0), (1, 0, 0), (2, 0, 0)] [(0, 1, 0), (1, 1, 0), (2, 1, 0)]).length =
        (List.length [((0:ℚ), (0:ℚ), (0:ℚ)), (1, 0, 0), (2, 0, 0)])) ∧
    (birail_intersection_grid trivialLib [wCurve] =
        [[wCurve].map (fun c => (trivialLib.get_end_points c).getD 0 (0, 0, 0)),
         [wCurve].map (fun c => (trivialLib.get_end_points c).getD 1 (0, 0, 0))] ∧
      (birail_intersection_grid trivialLib [wCurve]).length = 2) :=
  builders_intersection_grids trivialLib
    [(0, 0, 0), (1, 0, 0), (2, 0, 0)] [(0, 1, 0), (1, 1, 0), (2, 1, 0)] (by decide)
    [wCurve] wCurve (by decide) (by decide)
